import Mathlib

/-!
Shallow embedding of the synchronization engine of `iconml_watcher.py` and
`iconml_compare_byhash.py`: the store adapter, the stability detector, the
watch tables, the single-item (request) pipeline state machine and the two
batch-pipeline variants.  Timestamps are rationals, file-system directories
and the remote object store are partial maps `String → Option String`
(name/key to content), and in-memory dictionaries are association lists.
-/

namespace IconML

/-- The remote object store: key to content (`none` = absent). -/
def Store := String → Option String

/-- Python's `str.endswith(suffix)`, on the character lists. -/
def strEndsWith (s suffix : String) : Bool :=
  suffix.data.isSuffixOf s.data

/-- Last index of a `'.'` in a character list, if any. -/
def lastDotIdx : List Char → Option Nat
  | [] => none
  | c :: rest =>
    match lastDotIdx rest with
    | some i => some (i + 1)
    | none => if c = '.' then some 0 else none

/-- Python's `os.path.splitext` on a bare file name (no directory
separators): split at the last dot, except that leading dots never start an
extension. -/
def splitext (s : String) : String × String :=
  let cs := s.data
  let k := (cs.takeWhile (fun c => c == '.')).length
  match lastDotIdx (cs.drop k) with
  | none => (s, "")
  | some r => (⟨cs.take (k + r)⟩, ⟨cs.drop (k + r)⟩)

/-! ## Store adapter (`s3_*` helpers of `iconml_watcher.py`) -/

/-- One provider response to `list_objects_v2`: either a client error, or a
page of keys together with its `IsTruncated` flag. -/
inductive ListResp
  | err
  | page (contents : List String) (truncated : Bool)

/-- The paging loop of `s3_list_prefix`: consume provider responses in
continuation-token order, collecting every key that is not a directory
marker; stop at the first non-truncated page, and on a client error return
what was collected so far. -/
def s3_list_prefix_loop : List ListResp → List String → List String
  | [], acc => acc
  | ListResp.err :: _, acc => acc
  | ListResp.page cs true :: rest, acc =>
    s3_list_prefix_loop rest (acc ++ cs.filter (fun k => !(strEndsWith k "/")))
  | ListResp.page cs false :: _, acc =>
    acc ++ cs.filter (fun k => !(strEndsWith k "/"))

/-- `s3_list_prefix`: run the paging loop starting from an empty key list. -/
def s3_list_prefix (resps : List ListResp) : List String :=
  s3_list_prefix_loop resps []

/-- An error-free, well-chained pagination of the given pages: every page's
`IsTruncated` flag says whether further pages follow. -/
def mkResps : List (List String) → List ListResp
  | [] => []
  | p :: rest => ListResp.page p (!rest.isEmpty) :: mkResps rest

/-- `s3_upload`: `upload_file` PUTs the local content at the key,
overwriting whatever was there. -/
def s3_upload (store : Store) (key content : String) : Store :=
  fun k => if k = key then some content else store k

/-- `s3_copy`: `copy_object` writes the source object's content at the
destination key. -/
def s3_copy (store : Store) (src_key dst_key : String) : Store :=
  fun k => if k = dst_key then store src_key else store k

/-- `s3_delete`: `delete_object` removes the key. -/
def s3_delete (store : Store) (key : String) : Store :=
  fun k => if k = key then none else store k

/-- `s3_move`: no-op when source and destination coincide, otherwise copy
then delete the source. -/
def s3_move (store : Store) (src_key dst_key : String) : Store :=
  if src_key = dst_key then store
  else s3_delete (s3_copy store src_key dst_key) src_key

/-- The remote operations `s3_move` issues: none when source equals
destination, otherwise the copy followed by the delete. -/
inductive S3Op
  | copy (src dst : String)
  | delete (key : String)
deriving DecidableEq

/-- The operation trace of `s3_move`. -/
def s3_move_ops (src_key dst_key : String) : List S3Op :=
  if src_key = dst_key then []
  else [S3Op.copy src_key dst_key, S3Op.delete src_key]

/-! ## Stability detector (`file_is_stable`) -/

/-- `file_is_stable`: sample the size, wait the debounce interval, sample
again; `none` stands for a `FileNotFoundError` at that sample (the file
disappeared), which yields `False` rather than an exception.  Stable iff
both samples exist, agree, and are nonzero. -/
def file_is_stable (size1 size2 : Option Nat) : Bool :=
  match size1, size2 with
  | some s1, some s2 => s1 == s2 && decide (0 < s1)
  | _, _ => false

/-! ## Local archiving (`move_local`) -/

/-- The destination name `move_local` chooses inside the archive directory:
the source's base name, or, when that already exists, the base name with the
current integer timestamp spliced in before the extension. -/
def move_local_choose (archive : String → Option String) (base : String)
    (now : Nat) : String :=
  if (archive base).isSome then
    let ne := splitext base
    ne.1 ++ "_" ++ toString now ++ ne.2
  else base

/-- `move_local`: move the source file (of the given content) into the
archive directory, returning the updated directory and the chosen
destination name.  `shutil.move` overwrites an existing destination file. -/
def move_local (archive : String → Option String) (base content : String)
    (now : Nat) : (String → Option String) × String :=
  let dst := move_local_choose archive base now
  (fun k => if k = dst then some content else archive k, dst)

/-! ## Watch-table pull guard and the RBH pull step -/

/-- The download guard shared by `_handle_new_request_from_s3`,
`_pull_batches_from_s3` and `_pull_from_s3`:
`(s3lm is not None) and (not os.path.exists(local) or s3lm > local_m + 1.0
or s3lm > old + 1.0)`, where `local_m` is the local copy's mtime (`0.0`
when the local copy is absent) and `old` is the watch-table entry
(`0.0` when the key was never recorded). -/
def pullGuard (s3lm : Option ℚ) (localMTime : Option ℚ)
    (recorded : Option ℚ) : Bool :=
  match s3lm with
  | none => false
  | some lm =>
    let local_m : ℚ := localMTime.getD 0
    let old : ℚ := recorded.getD 0
    localMTime.isNone || decide (local_m + 1 < lm) || decide (old + 1 < lm)

/-- Python dict assignment `d[k] = v` on an association list. -/
def updKey {α : Type} (k : String) (v : α) (l : List (String × α)) :
    List (String × α) :=
  (k, v) :: l.filter (fun p => p.1 != k)

/-- Python dict `d.pop(k, None)` on an association list. -/
def popKey {α : Type} (k : String) (l : List (String × α)) :
    List (String × α) :=
  l.filter (fun p => p.1 != k)

/-- One key of `RBHWatcher._pull_batches_from_s3`: when the pull guard fires
and the download succeeds, record the observed mtime in the watch table and
(re)install the batch's hash set; otherwise leave both tables unchanged.
Returns the updated watch table, the updated batch table, and whether the
key was processed (downloaded and enqueued). -/
def rbh_pull_step (s3lm : Option ℚ) (localMTime : Option ℚ)
    (downloadOk : Bool) (name : String) (fileHashes : List String)
    (seen : List (String × ℚ)) (batches : List (String × List String)) :
    List (String × ℚ) × List (String × List String) × Bool :=
  if pullGuard s3lm localMTime (List.lookup name seen) && downloadOk then
    (updKey name ((s3lm).getD 0) seen, updKey name fileHashes batches, true)
  else
    (seen, batches, false)

/-! ## RBH batch pipeline of `iconml_watcher.py` (`RBHWatcher`) -/

/-- `RBHWatcher._icon_base_from_request`: read `request/<h>.json` and derive
the icon base name.  `reqIconField h` is the parsed `icon_filename` field
(already defaulted to `""` by `data.get(..) or ""`) when the request file
exists and loads, `none` otherwise.  An empty base yields `none`
(`return base or None`). -/
def icon_base_from_request (reqIconField : String → Option String)
    (h : String) : Option String :=
  match reqIconField h with
  | none => none
  | some icon_filename =>
    let base := (splitext icon_filename).1
    if base = "" then none else some base

/-- `RBHWatcher._image_exists_for_hash`: resolve the icon base and check
`imageresults/<base>.json`; an unresolvable base counts as not ready. -/
def image_exists_for_hash (reqIconField : String → Option String)
    (imagePresent : String → Bool) (h : String) : Bool :=
  match icon_base_from_request reqIconField h with
  | none => false
  | some base => imagePresent (base ++ ".json")

/-- `RBHWatcher._all_done_for_batch`: split the member ids, in order, into
the completed ones (both artifacts present) and the pending ones. -/
def all_done_for_batch (infoOk imgOk : String → Bool) :
    List String → List String × List String
  | [] => ([], [])
  | h :: t =>
    let dp := all_done_for_batch infoOk imgOk t
    if infoOk h && imgOk h then (h :: dp.1, dp.2) else (dp.1, h :: dp.2)

/-- `RBHWatcher._try_finalize_batches` writes the done summary for a batch
exactly when its pending list is empty (there is no deadline in this
variant). -/
def rbh_should_finalize (infoOk imgOk : String → Bool)
    (hashes : List String) : Bool :=
  ((all_done_for_batch infoOk imgOk hashes).2).isEmpty

/-- The per-member line of the summary (`f"  - {h}"`). -/
def summary_tag (h : String) : String :=
  "  - " ++ h

/-- `RBHWatcher._write_summary`, as its list of lines (the source joins
them with newlines). -/
def write_summary (local_txt_name : String) (done pending : List String)
    (all_hashes : List String) : List String :=
  ["SUMMARY FOR: " ++ local_txt_name,
   "TOTAL HASHES: " ++ toString all_hashes.length,
   "",
   "[SUCCESS COMPLETED] (" ++ toString done.length ++ ")"]
  ++ done.map summary_tag
  ++ ["",
      "[PENDING_OR_TIMEOUT] (" ++ toString pending.length ++ ")"]
  ++ pending.map summary_tag
  ++ ["",
      "NOTE:",
      "  SUCCESS COMPLETED: inforesults/<hash>.json & imageresults/<icon_hash>.json both present.",
      "  PENDING_OR_TIMEOUT: missing either inforesult or imageresult (或 request/<hash>.json 缺失，无法确定 icon_hash)。"]

/-! ## Batch monitor of `iconml_compare_byhash.py` -/

/-- Outcome of `process_one_hash` for one member id. -/
inductive HashStatus
  | success_ready (icon : String)
  | info_only
  | failed (reason : String)

/-- `BatchState` of `iconml_compare_byhash.py` (the `path` field, a local
file-system path, is represented by the manifest name). -/
structure BatchState where
  name : String
  start_ts : ℚ
  all_hashes : List String
  success_ready : List (String × String)
  info_only : List String
  failed : List (String × String)
  remaining : List (String × String)

/-- `MAX_WAIT_SECONDS`: the batch deadline, 1800 seconds. -/
def MAX_WAIT_SECONDS : ℚ := 1800

/-- `process_txt_start`: classify every member id by its
`process_one_hash` outcome and start monitoring the `success_ready` ones
(`bs.remaining` is initialised from `bs.success_ready`). -/
def process_txt_start (status : String → HashStatus) (txtName : String)
    (hashes : List String) (now : ℚ) : BatchState :=
  let sr := hashes.filterMap (fun h =>
    match status h with
    | HashStatus.success_ready ic => some (h, ic)
    | _ => none)
  { name := txtName
    start_ts := now
    all_hashes := hashes
    success_ready := sr
    info_only := hashes.filter (fun h =>
      match status h with
      | HashStatus.info_only => true
      | _ => false)
    failed := hashes.filterMap (fun h =>
      match status h with
      | HashStatus.failed r => some (h, r)
      | _ => none)
    remaining := sr }

/-- `result_exists_for_hash`: `inforesults/<h>.json` or
`bakinforesults/<h>.json` exists. -/
def result_exists_for_hash (infoDir bakInfoDir : String → Bool)
    (h : String) : Bool :=
  infoDir (h ++ ".json") || bakInfoDir (h ++ ".json")

/-- `result_exists_for_icon`: an empty icon name is never ready; otherwise
check `imageresults/<base>.json` or its archive, where `base` is the icon
file name without extension. -/
def result_exists_for_icon (imgDir bakImgDir : String → Bool)
    (icon_filename : String) : Bool :=
  if icon_filename = "" then false
  else
    let base := (splitext icon_filename).1
    imgDir (base ++ ".json") || bakImgDir (base ++ ".json")

/-- One batch of `tick_monitor`: pop the members whose two artifacts are now
present, then finalize (produce the done summary) iff no monitored member
remains or strictly more than `MAX_WAIT_SECONDS` elapsed since the batch
started.  Returns the finalize decision and the updated `remaining`. -/
def tick_monitor_one (infoDir bakInfoDir imgDir bakImgDir : String → Bool)
    (now : ℚ) (bs : BatchState) : Bool × List (String × String) :=
  let remaining' := bs.remaining.filter (fun p =>
    !(result_exists_for_hash infoDir bakInfoDir p.1
      && result_exists_for_icon imgDir bakImgDir p.2))
  (remaining'.isEmpty || decide (MAX_WAIT_SECONDS < now - bs.start_ts),
    remaining')

/-! ## Single-item (request) pipeline of `iconml_watcher.py` -/

/-- `RequestTask`: one unit of work; `icon_base_noext` is the icon file
name without its extension. -/
structure RequestTask where
  req_json_name : String
  icon_filename : String
  icon_base_noext : String
  s3_processing_key : String
deriving DecidableEq

/-- The `RequestTask` constructor
(`self.icon_base_noext = os.path.splitext(icon_filename)[0]`). -/
def mkRequestTask (req_json_name icon_filename s3_processing_key : String) :
    RequestTask :=
  { req_json_name := req_json_name
    icon_filename := icon_filename
    icon_base_noext := (splitext icon_filename).1
    s3_processing_key := s3_processing_key }

/-- The local state a `RequestWatcher` owns: its two pending wait-slot
tables, the two result directories it scans, their archive directories, and
the log. -/
structure ReqState where
  pending_inforesults : List (String × RequestTask)
  pending_imageresults : List (String × RequestTask)
  inforesultsDir : String → Option String
  imageresultsDir : String → Option String
  bakinforesultsDir : String → Option String
  bakimageresultsDir : String → Option String
  log : List String

/-- The delivery body of `RequestWatcher._scan_local_inforesults` for one
eligible stable file `fname` (a pending `.json` info result).  `uploadOk`
is the outcome of the `s3_upload` call and `moveOk` that of the ancillary
`s3_move` processing→processed call: a failed upload is logged and the
body continues to the next file (nothing else changes, so the delivery is
retried next tick); a failed move is only a warning, after which the
artifact is archived via `move_local` and the info slot is popped. -/
def deliverInfoOne (uploadOk moveOk : Bool) (fname : String) (now : Nat)
    (st : ReqState) : ReqState :=
  match List.lookup fname st.pending_inforesults with
  | none => st
  | some _ =>
    if !uploadOk then
      { st with log := st.log ++ ["[REQ] upload inforesults failed"] }
    else
      let warnLog := if !moveOk then ["[REQ] processing->processed warn"]
        else []
      let content := (st.inforesultsDir fname).getD ""
      let arch := move_local st.bakinforesultsDir fname content now
      { st with
        inforesultsDir := fun k =>
          if k = fname then none else st.inforesultsDir k
        bakinforesultsDir := arch.1
        pending_inforesults := popKey fname st.pending_inforesults
        log := st.log ++ warnLog
          ++ ["[DEQUEUE][REQ] inforesults " ++ fname] }

/-- The delivery body of `RequestWatcher._scan_local_imageresults` for one
eligible stable file `fname`, keyed by the icon base name.  `uploadOk` is
the outcome of the `s3_upload` call and `deleteIconOk` that of the
ancillary `s3_delete` of the fetched icon: a failed upload is logged and
the body continues (retried next tick); a failed delete is only a warning,
after which the artifact is archived and the image slot is popped. -/
def deliverImageOne (uploadOk deleteIconOk : Bool) (fname : String)
    (now : Nat) (st : ReqState) : ReqState :=
  let base := (splitext fname).1
  match List.lookup base st.pending_imageresults with
  | none => st
  | some _ =>
    if !uploadOk then
      { st with log := st.log ++ ["[REQ] upload imageresults failed"] }
    else
      let warnLog := if !deleteIconOk then ["[REQ] delete icon warn"]
        else []
      let content := (st.imageresultsDir fname).getD ""
      let arch := move_local st.bakimageresultsDir fname content now
      { st with
        imageresultsDir := fun k =>
          if k = fname then none else st.imageresultsDir k
        bakimageresultsDir := arch.1
        pending_imageresults := popKey base st.pending_imageresults
        log := st.log ++ warnLog
          ++ ["[DEQUEUE][REQ] imageresults " ++ fname] }

/-- A concrete request-pipeline state with one task pending in both slots
and its info result present on disk. -/
def cReqState : ReqState :=
  { pending_inforesults :=
      [("r1.json", mkRequestTask "r1.json" "icon1.png"
        ("iconml/processing/" ++ "r1.json"))]
    pending_imageresults :=
      [("icon1", mkRequestTask "r1.json" "icon1.png"
        ("iconml/processing/" ++ "r1.json"))]
    inforesultsDir := fun k => if k = "r1.json" then some "body" else none
    imageresultsDir := fun _ => none
    bakinforesultsDir := fun _ => none
    bakimageresultsDir := fun _ => none
    log := [] }

end IconML

namespace IconML

/-! ## Theorems: store adapter, stability, archiving -/

/-- Helper: the paging loop appends to its accumulator. -/
theorem s3_list_prefix_loop_acc (resps : List ListResp) (acc : List String) :
    s3_list_prefix_loop resps acc = acc ++ s3_list_prefix_loop resps [] := by
  induction resps generalizing acc with
  | nil => simp [s3_list_prefix_loop]
  | cons r rest ih =>
    cases r with
    | err => simp [s3_list_prefix_loop]
    | page cs t =>
      cases t with
      | true =>
        simp only [s3_list_prefix_loop]
        rw [ih]
        conv_rhs => rw [ih]
        simp
      | false => simp [s3_list_prefix_loop]

/-- C4: For every prefix, the store adapter's list operation returns all
object keys under that prefix by paginating internally, and never silently
returns a truncated list regardless of any provider page limit: over any
error-free pagination, the result is exactly the concatenation of all pages
(directory markers removed), so every non-marker key of every page is
returned. -/
theorem s3_list_prefix_complete (pages : List (List String)) :
    s3_list_prefix (mkResps pages)
      = pages.flatten.filter (fun k => !(strEndsWith k "/")) ∧
    ∀ k, k ∈ pages.flatten → strEndsWith k "/" = false →
      k ∈ s3_list_prefix (mkResps pages) := by
  have main : ∀ ps : List (List String),
      s3_list_prefix (mkResps ps)
        = ps.flatten.filter (fun k => !(strEndsWith k "/")) := by
    intro ps
    induction ps with
    | nil => rfl
    | cons p rest ih =>
      cases rest with
      | nil => simp [ s3_list_prefix, mkResps, s3_list_prefix_loop]
      | cons q rest' =>
        show s3_list_prefix_loop
            (ListResp.page p (!(q :: rest').isEmpty) :: mkResps (q :: rest')) []
          = _
        rw [List.isEmpty_cons, Bool.not_false, s3_list_prefix_loop,
          s3_list_prefix_loop_acc, List.nil_append]
        rw [ s3_list_prefix] at ih
        rw [ih]
        simp [List.filter_append]
  refine ⟨main pages, ?_⟩
  intro k hk hns
  rw [main pages]
  exact List.mem_filter.mpr ⟨hk, by simp [hns]⟩

/-- Witness for `s3_list_prefix_complete` at a concrete two-page listing
containing a directory marker. -/
theorem s3_list_prefix_complete_witness :
    "c" ∈ ([["a"], ["b/", "c"]] : List (List String)).flatten ∧
    strEndsWith "c" "/" = false ∧
    "c" ∈ s3_list_prefix (mkResps [["a"], ["b/", "c"]]) :=
  ⟨by decide, by decide,
    (s3_list_prefix_complete [["a"], ["b/", "c"]]).2 "c" (by decide)
      (by decide)⟩

/-- C5: the stability detector reports a file stable iff its two size
samples across the debounce interval agree and are nonzero; a file that
disappears during the check (a missing sample) is reported not-stable
rather than raising an error. -/
theorem file_is_stable_iff (size1 size2 : Option Nat) :
    (file_is_stable size1 size2 = true ↔
      ∃ n, size1 = some n ∧ size2 = some n ∧ 0 < n) ∧
    (∀ s, file_is_stable none s = false ∧ file_is_stable s none = false) := by
  constructor
  · cases size1 with
    | none => simp [file_is_stable]
    | some a =>
      cases size2 with
      | none => simp [file_is_stable]
      | some b =>
        simp only [file_is_stable, Bool.and_eq_true, beq_iff_eq,
          decide_eq_true_eq]
        constructor
        · rintro ⟨rfl, hpos⟩; exact ⟨a, rfl, rfl, hpos⟩
        · rintro ⟨n, hn1, hn2, hpos⟩
          cases hn1; cases hn2; exact ⟨rfl, hpos⟩
  · intro s
    refine ⟨rfl, ?_⟩
    cases s <;> rfl

/-- C7: uploading the same local artifact to a fixed result key twice
leaves the remote store in the same final state as uploading it once. -/
theorem s3_upload_idempotent (store : Store) (key content : String) :
    s3_upload (s3_upload store key content) key content
      = s3_upload store key content := by
  funext k
  unfold s3_upload
  by_cases h : k = key <;> simp [h]

/-- C9: the store adapter's move operation with identical source and
destination keys is a no-op: it performs neither the copy nor the delete
step, and the store (in particular the object at that key) is unchanged. -/
theorem s3_move_self (store : Store) (k : String) :
    s3_move store k k = store ∧ s3_move_ops k k = [] := by
  constructor
  · unfold s3_move; simp
  · unfold s3_move_ops; simp

/-! ## Local archiving (C10) -/

/-- An archive directory already holding both `a.json` and its
timestamp-suffixed variant for second 100. -/
def cArchive : String → Option String :=
  fun k =>
    if k = "a.json" then some "old"
    else if k = "a_100.json" then some "x" else none

/-- An archive directory holding only `a.json`. -/
def cArchive0 : String → Option String :=
  fun k => if k = "a.json" then some "old" else none

/-- C10 counterexample: archiving `a.json` at second 100 into a directory
that already holds `a.json` and `a_100.json` picks the timestamp-suffixed
name without checking it and overwrites the file `a_100.json` already
present (content `x` is lost), so local archiving does not preserve all
previously archived files. -/
theorem move_local_overwrite_counterexample :
    cArchive "a_100.json" = some "x" ∧
    (move_local cArchive "a.json" "new" 100).1 "a_100.json" = some "new" := by
  constructor
  · rfl
  · decide

/-- C10 amended: when the destination name `move_local` chooses (the base
name, or its timestamp-suffixed variant when the base name is already
archived) is not itself already present, archiving preserves every file
already present in the archive directory; a pre-existing file under
exactly the chosen name (same base name archived twice within one second)
is overwritten. -/
theorem move_local_preserves_fresh (archive : String → Option String)
    (base content : String) (now : Nat)
    (hfresh : archive (move_local_choose archive base now) = none)
    (f : String) (hf : (archive f).isSome = true) :
    (move_local archive base content now).1 f = archive f := by
  unfold move_local
  by_cases h : f = move_local_choose archive base now
  · rw [h, hfresh] at hf
    simp at hf
  · simp [h]

/-- Witness for `move_local_preserves_fresh` at a concrete archive. -/
theorem move_local_preserves_fresh_witness :
    cArchive0 (move_local_choose cArchive0 "a.json" 100) = none ∧
    (cArchive0 "a.json").isSome = true ∧
    (move_local cArchive0 "a.json" "new" 100).1 "a.json"
      = cArchive0 "a.json" :=
  ⟨by decide, by decide,
    move_local_preserves_fresh cArchive0 "a.json" "new" 100 (by decide)
      "a.json" (by decide)⟩

/-! ## Watch-table change detection (C2) -/

/-- C2 counterexample: a key already recorded in the watch table at mtime
100 whose observed remote mtime is still 100 (neither never-recorded nor
newer by more than the 1-second tolerance) is nevertheless processed —
downloaded and enqueued — because its local copy is absent. -/
theorem watch_reprocess_counterexample :
    (rbh_pull_step (some 100) none true "b.txt" ["h1"]
        [("b.txt", 100)] []).2.2 = true ∧
    List.lookup "b.txt" [("b.txt", (100 : ℚ))] = some 100 ∧
    ¬((100 : ℚ) > 100 + 1) := by
  refine ⟨rfl, rfl, by norm_num⟩

/-- C2 amended: a key is processed (downloaded and enqueued) exactly when
its remote modification time is observed, the download succeeds, and at
least one of: the local copy is absent; the observed time exceeds the
local copy's mtime by more than 1 second; the observed time exceeds the
recorded time (0 when the key was never recorded) by more than 1 second.
A key satisfying none of these is left unprocessed on that tick. -/
theorem watch_guard_amended (s3lm localMTime recorded : Option ℚ)
    (downloadOk : Bool) (name : String) (fileHashes : List String)
    (seen : List (String × ℚ)) (batches : List (String × List String)) :
    (pullGuard s3lm localMTime recorded = true ↔
      ∃ lm, s3lm = some lm ∧
        (localMTime = none ∨ localMTime.getD 0 + 1 < lm ∨
          recorded.getD 0 + 1 < lm)) ∧
    ((rbh_pull_step s3lm localMTime downloadOk name fileHashes seen
        batches).2.2
      = (pullGuard s3lm localMTime (List.lookup name seen) && downloadOk)) := by
  constructor
  · cases s3lm with
    | none => simp [pullGuard]
    | some lm =>
      simp only [pullGuard, Bool.or_eq_true, decide_eq_true_eq,
        Option.isNone_iff_eq_none, Option.some.injEq]
      constructor
      · intro h
        exact ⟨lm, rfl, by tauto⟩
      · rintro ⟨lm', rfl, h⟩
        tauto
  · cases h : (pullGuard s3lm localMTime (List.lookup name seen)
        && downloadOk) <;>
      simp [rbh_pull_step, h]

/-! ## Batch summary partition (C8) -/

/-- Helper: `_all_done_for_batch` computes the two filters of the member
list by the completion predicate. -/
theorem all_done_eq_filter (infoOk imgOk : String → Bool)
    (hashes : List String) :
    all_done_for_batch infoOk imgOk hashes
      = (hashes.filter (fun h => infoOk h && imgOk h),
         hashes.filter (fun h => !(infoOk h && imgOk h))) := by
  induction hashes with
  | nil => rfl
  | cons h t ih =>
    simp only [all_done_for_batch, ih, List.filter_cons]
    cases hinfo : infoOk h <;> cases himg : imgOk h <;> simp [hinfo, himg]

/-- Helper: the member line renderer of the summary is injective. -/
theorem summary_tag_injective : Function.Injective summary_tag := by
  intro a b hab
  have h3 : ' ' :: ' ' :: '-' :: ' ' :: a.data
      = ' ' :: ' ' :: '-' :: ' ' :: b.data := congrArg String.data hab
  simp only [List.cons.injEq] at h3
  exact String.ext h3.2.2.2.2

/-- C8: for a batch over a duplicate-free member set, the completed and
pending lists partition the member set — each member is counted exactly
once across the two lists, no id is in both, none is dropped, none is
invented — and the generated summary consists of fixed header lines plus
one tagged line per completed member and one per pending member, each
member contributing exactly one tagged line. -/
theorem batch_summary_partition (infoOk imgOk : String → Bool)
    (name : String) (hashes : List String) (hnd : hashes.Nodup) :
    (∀ h, h ∈ hashes →
      (all_done_for_batch infoOk imgOk hashes).1.count h
        + (all_done_for_batch infoOk imgOk hashes).2.count h = 1) ∧
    (∀ h, h ∈ (all_done_for_batch infoOk imgOk hashes).1 →
      h ∉ (all_done_for_batch infoOk imgOk hashes).2) ∧
    (∀ h, h ∈ (all_done_for_batch infoOk imgOk hashes).1
        ∨ h ∈ (all_done_for_batch infoOk imgOk hashes).2 → h ∈ hashes) ∧
    (∀ h, h ∈ hashes → h ∈ (all_done_for_batch infoOk imgOk hashes).1
        ∨ h ∈ (all_done_for_batch infoOk imgOk hashes).2) ∧
    (write_summary name (all_done_for_batch infoOk imgOk hashes).1
        (all_done_for_batch infoOk imgOk hashes).2 hashes
      = ["SUMMARY FOR: " ++ name,
         "TOTAL HASHES: " ++ toString hashes.length,
         "",
         "[SUCCESS COMPLETED] ("
           ++ toString (all_done_for_batch infoOk imgOk hashes).1.length
           ++ ")"]
        ++ (all_done_for_batch infoOk imgOk hashes).1.map summary_tag
        ++ ["",
            "[PENDING_OR_TIMEOUT] ("
              ++ toString (all_done_for_batch infoOk imgOk hashes).2.length
              ++ ")"]
        ++ (all_done_for_batch infoOk imgOk hashes).2.map summary_tag
        ++ ["",
            "NOTE:",
            "  SUCCESS COMPLETED: inforesults/<hash>.json & imageresults/<icon_hash>.json both present.",
            "  PENDING_OR_TIMEOUT: missing either inforesult or imageresult (或 request/<hash>.json 缺失，无法确定 icon_hash)。"]) ∧
    (∀ h, h ∈ hashes →
      ((all_done_for_batch infoOk imgOk hashes).1.map summary_tag).count
          (summary_tag h)
        + ((all_done_for_batch infoOk imgOk hashes).2.map summary_tag).count
          (summary_tag h) = 1) := by
  have hcount : ∀ h, h ∈ hashes →
      (all_done_for_batch infoOk imgOk hashes).1.count h
        + (all_done_for_batch infoOk imgOk hashes).2.count h = 1 := by
    intro h hm
    rw [all_done_eq_filter]
    dsimp only
    have h1 : hashes.count h = 1 := List.count_eq_one_of_mem hnd hm
    cases hc : (infoOk h && imgOk h) with
    | true =>
      have hz : List.count h
          (List.filter (fun x => !(infoOk x && imgOk x)) hashes) = 0 :=
        List.count_eq_zero.mpr (fun hmem => by
          have := (List.mem_filter.mp hmem).2
          simp [hc] at this)
      rw [List.count_filter (p := fun x => infoOk x && imgOk x) hc, hz, h1]
    | false =>
      have hz : List.count h
          (List.filter (fun x => infoOk x && imgOk x) hashes) = 0 :=
        List.count_eq_zero.mpr (fun hmem => by
          have := (List.mem_filter.mp hmem).2
          simp [hc] at this)
      rw [hz, List.count_filter (p := fun x => !(infoOk x && imgOk x))
        (by simp [hc]), h1]
  refine ⟨hcount, ?_, ?_, ?_, rfl, ?_⟩
  · intro h hd hp
    rw [all_done_eq_filter] at hd hp
    have := (List.mem_filter.mp hd).2
    have := (List.mem_filter.mp hp).2
    simp_all
  · intro h hdp
    rw [all_done_eq_filter] at hdp
    rcases hdp with hd | hp
    · exact (List.mem_filter.mp hd).1
    · exact (List.mem_filter.mp hp).1
  · intro h hm
    rw [all_done_eq_filter]
    cases hc : (infoOk h && imgOk h) with
    | true => exact Or.inl (List.mem_filter.mpr ⟨hm, hc⟩)
    | false => exact Or.inr (List.mem_filter.mpr ⟨hm, by simp [hc]⟩)
  · intro h hm
    rw [List.count_map_of_injective _ summary_tag summary_tag_injective,
      List.count_map_of_injective _ summary_tag summary_tag_injective]
    exact hcount h hm

/-- Witness for `batch_summary_partition` at a concrete duplicate-free
two-member batch. -/
theorem batch_summary_partition_witness :
    (["a", "b"] : List String).Nodup ∧
    "a" ∈ (["a", "b"] : List String) ∧
    (all_done_for_batch (fun h => h == "a") (fun _ => true)
        ["a", "b"]).1.count "a"
      + (all_done_for_batch (fun h => h == "a") (fun _ => true)
        ["a", "b"]).2.count "a" = 1 :=
  ⟨by decide, by decide,
    (batch_summary_partition (fun h => h == "a") (fun _ => true)
      "batch1.txt" ["a", "b"] (by decide)).1 "a" (by decide)⟩

/-! ## Batch finalization barrier and deadline (C1) -/

/-- C1 counterexample: a batch started from a manifest with the single
member `h1` whose per-id processing failed has an empty monitored set, so
on the very first monitor tick — with no result artifact present and zero
elapsed time, far below the deadline — the done-summary is already
produced; hence the summary is not produced "iff all members have both
artifacts or the deadline elapsed". -/
theorem batch_deadline_counterexample :
    (tick_monitor_one (fun _ => false) (fun _ => false) (fun _ => false)
        (fun _ => false) 0
        (process_txt_start (fun _ => HashStatus.failed "download_failed")
          "batch1.txt" ["h1"] 0)).1 = true ∧
    (process_txt_start (fun _ => HashStatus.failed "download_failed")
        "batch1.txt" ["h1"] 0).all_hashes = ["h1"] ∧
    result_exists_for_hash (fun _ => false) (fun _ => false) "h1" = false ∧
    (0 : ℚ) - 0 < MAX_WAIT_SECONDS := by
  refine ⟨rfl, rfl, rfl, by norm_num [MAX_WAIT_SECONDS]⟩

/-- C1 amended: in the `tick_monitor` variant the done-summary is produced
iff every *monitored* member (the batch's `remaining` table, initialised
from the members whose per-id processing succeeded with an icon) has both
result artifacts present, or strictly more than the 1800-second deadline
elapsed since the batch's start; in the `RBHWatcher` variant the summary is
produced iff every member id has both artifacts present, with no deadline
at all. -/
theorem batch_finalize_amended
    (infoDir bakInfoDir imgDir bakImgDir : String → Bool) (now : ℚ)
    (bs : BatchState) (infoOk imgOk : String → Bool)
    (hashes : List String) (status : String → HashStatus)
    (txtName : String) (hs2 : List String) (t0 : ℚ) :
    ((tick_monitor_one infoDir bakInfoDir imgDir bakImgDir now bs).1 = true
      ↔ ((∀ p ∈ bs.remaining,
            result_exists_for_hash infoDir bakInfoDir p.1 = true ∧
            result_exists_for_icon imgDir bakImgDir p.2 = true)
          ∨ MAX_WAIT_SECONDS < now - bs.start_ts)) ∧
    ((process_txt_start status txtName hs2 t0).remaining
      = (process_txt_start status txtName hs2 t0).success_ready) ∧
    (rbh_should_finalize infoOk imgOk hashes = true ↔
      ∀ h ∈ hashes, infoOk h = true ∧ imgOk h = true) := by
  refine ⟨?_, rfl, ?_⟩
  · simp only [tick_monitor_one, Bool.or_eq_true, List.isEmpty_iff,
      List.filter_eq_nil_iff, decide_eq_true_eq]
    constructor
    · rintro (h | h)
      · left
        intro p hp
        simpa using h p hp
      · exact Or.inr h
    · rintro (h | h)
      · left
        intro p hp
        simpa using h p hp
      · exact Or.inr h
  · rw [rbh_should_finalize, all_done_eq_filter]
    simp [List.isEmpty_iff, List.filter_eq_nil_iff]

/-! ## Single-item delivery failure semantics (C3) and partial Task
independence (C6) -/

/-- Helper: popping a key from a pending table removes every binding for
that key. -/
theorem lookup_popKey {α : Type} (k : String) (l : List (String × α)) :
    List.lookup k (popKey k l) = none := by
  induction l with
  | nil => rfl
  | cons p t ih =>
    rcases p with ⟨a, b⟩
    by_cases h : a = k
    · simpa [popKey, List.filter_cons, h] using ih
    · have hne : (k == a) = false := by
        simp [h, Ne.symm h]
      simpa [popKey, List.filter_cons, h, List.lookup, hne] using ih

/-- C3 counterexample: with one Task pending in both slots and its info
result on disk, a *successful* upload followed by a *failed*
processing→processed move still archives the artifact and retires the info
slot (and logs only a warning): the pending entry is not kept and the
delivery is not retried, contradicting the claim for move failures. -/
theorem delivery_move_failure_counterexample :
    List.lookup "r1.json"
        (deliverInfoOne true false "r1.json" 100 cReqState).pending_inforesults
      = none ∧
    (deliverInfoOne true false "r1.json" 100 cReqState).bakinforesultsDir
        "r1.json" = some "body" ∧
    (deliverInfoOne true false "r1.json" 100 cReqState).log
      = ["[REQ] processing->processed warn",
         "[DEQUEUE][REQ] inforesults r1.json"] := by
  refine ⟨by decide, by decide, by decide⟩

/-- C3 amended: for either result slot, an upload failure leaves both
pending tables and both the result and archive directories unchanged (so
that delivery is retried on the next tick, the other slot untouched and
the loop not aborted); a failure of the ancillary remote transition
(processing→processed move, or icon deletion) does not stop the delivery:
the slot is still retired — its pending entry removed — while the other
slot's table is untouched. -/
theorem delivery_failure_semantics (st : ReqState) (fname : String)
    (now : Nat) (moveOk deleteIconOk : Bool) :
    ((deliverInfoOne false moveOk fname now st).pending_inforesults
        = st.pending_inforesults ∧
      (deliverInfoOne false moveOk fname now st).pending_imageresults
        = st.pending_imageresults ∧
      (deliverInfoOne false moveOk fname now st).inforesultsDir
        = st.inforesultsDir ∧
      (deliverInfoOne false moveOk fname now st).bakinforesultsDir
        = st.bakinforesultsDir) ∧
    ((deliverImageOne false deleteIconOk fname now st).pending_imageresults
        = st.pending_imageresults ∧
      (deliverImageOne false deleteIconOk fname now st).pending_inforesults
        = st.pending_inforesults ∧
      (deliverImageOne false deleteIconOk fname now st).imageresultsDir
        = st.imageresultsDir ∧
      (deliverImageOne false deleteIconOk fname now st).bakimageresultsDir
        = st.bakimageresultsDir) ∧
    (List.lookup fname
        (deliverInfoOne true false fname now st).pending_inforesults = none ∧
      (deliverInfoOne true false fname now st).pending_imageresults
        = st.pending_imageresults) ∧
    (List.lookup ((splitext fname).1)
        (deliverImageOne true false fname now st).pending_imageresults
        = none ∧
      (deliverImageOne true false fname now st).pending_inforesults
        = st.pending_inforesults) := by
  refine ⟨?_, ?_, ?_, ?_⟩
  · cases h : List.lookup fname st.pending_inforesults <;>
      simp [deliverInfoOne, h]
  · cases h : List.lookup ((splitext fname).1) st.pending_imageresults <;>
      simp [deliverImageOne, h]
  · cases h : List.lookup fname st.pending_inforesults <;>
      simp [deliverInfoOne, h, lookup_popKey]
  · cases h : List.lookup ((splitext fname).1) st.pending_imageresults <;>
      simp [deliverImageOne, h, lookup_popKey]

/-- C6: delivering only the info-result of a Task retires only the info
slot: after the info delivery the info-pending entry keyed by the Task's
id is gone, while the image-pending table — including the entry keyed by
the asset-derived identifier — is exactly as before, so the Task keeps
waiting for its remaining slot on subsequent ticks. -/
theorem info_delivery_retires_only_info_slot (st : ReqState)
    (fname : String) (now : Nat) (moveOk : Bool) :
    (deliverInfoOne true moveOk fname now st).pending_imageresults
      = st.pending_imageresults ∧
    List.lookup fname
      (deliverInfoOne true moveOk fname now st).pending_inforesults
      = none := by
  cases h : List.lookup fname st.pending_inforesults <;>
    simp [deliverInfoOne, h, lookup_popKey]

end IconML
